import Mathlib

/-
  Verification of dnsproxy-rs (a DNS forwarding proxy) against its
  natural-language specification.

  Shallow embedding notes:
  * src/src/cache/mod.rs: the `Clock` trait is sampled at each call; here every
    time-dependent operation takes the sampled instant `now : Nat` explicitly.
    `HashMap` is embedded as an association list whose insert replaces the
    binding for an existing key and returns the previous entry, like
    `HashMap::insert`.
  * src/src/handler.rs: the only `AsyncQueryHandler` implementation in the
    repository is `Upstream`; a chain node therefore carries an abstract
    `resolve` function (the handler's own body, i.e. the upstream round trip)
    and an optional next handler, exactly the `next: Option<Box<dyn ...>>`
    shape. `with_next` overwrites the `next` field, as `Upstream::with_next`
    does. `handle_query` is instrumented with the list of handler ids invoked,
    so that invocation claims can be stated; projecting the log away gives the
    source semantics unchanged.
  * Network and decoding effects are abstracted as explicit outcome values
    (`NetResult`), since their success or failure is decided outside the core.
-/

namespace DnsproxyRs

/-- Embeds `ValueWithTtl` from src/src/cache/mod.rs: a value with the absolute
deadline computed at insertion. The stored clock is replaced by passing the
sampled instant to each operation. -/
structure ValueWithTtl (V : Type) where
  deadline : Nat
  value : V
deriving DecidableEq

/-- `ValueWithTtl::new`: deadline is `clock.now() + ttl` where `now` is the
instant sampled at construction. -/
def ValueWithTtl.new (value : V) (now ttl : Nat) : ValueWithTtl V :=
  { deadline := now + ttl, value := value }

/-- `ValueWithTtl::is_expired`: `self.clock.now() >= self.deadline`. -/
def ValueWithTtl.is_expired (e : ValueWithTtl V) (now : Nat) : Bool :=
  decide (e.deadline ≤ now)

/-- `ValueWithTtl::get`: the value if not expired at the sampled instant. -/
def ValueWithTtl.get (e : ValueWithTtl V) (now : Nat) : Option V :=
  if e.is_expired now then none else some e.value

/-- `ValueWithTtl::extract`: like `get` but by value (same observable result). -/
def ValueWithTtl.extract (e : ValueWithTtl V) (now : Nat) : Option V :=
  if e.is_expired now then none else some e.value

/-- Embeds the cache's `HashMap<K, ValueWithTtl<V>>` as an association list. -/
structure Cache (K V : Type) where
  inner : List (K × ValueWithTtl V)

/-- `HashMap::get` on the association list: the entry bound to `k`, if any. -/
def lookupEntry [DecidableEq K] : List (K × ValueWithTtl V) → K → Option (ValueWithTtl V)
  | [], _ => none
  | p :: rest, k => if p.1 = k then some p.2 else lookupEntry rest k

/-- `HashMap::insert` on the association list: replaces the binding for `k`
(appending when absent) and returns the previous entry, if any. -/
def insertEntry [DecidableEq K] :
    List (K × ValueWithTtl V) → K → ValueWithTtl V → List (K × ValueWithTtl V) × Option (ValueWithTtl V)
  | [], k, e => ([(k, e)], none)
  | p :: rest, k, e =>
    if p.1 = k then ((k, e) :: rest, some p.2)
    else
      let r := insertEntry rest k e
      (p :: r.1, r.2)

/-- `Cache::insert`: stores the value with deadline `now + ttl`, then applies
`?.extract()` to the previous entry (absent when the map had none). -/
def Cache.insert [DecidableEq K] (c : Cache K V) (k : K) (v : V) (ttl now : Nat) :
    Cache K V × Option V :=
  let r := insertEntry c.inner k (ValueWithTtl.new v now ttl)
  (⟨r.1⟩, r.2.bind fun e => e.extract now)

/-- `Cache::get`: `self.inner.get(&key)?.get()`. -/
def Cache.get [DecidableEq K] (c : Cache K V) (k : K) (now : Nat) : Option V :=
  (lookupEntry c.inner k).bind fun e => e.get now

/-- `Cache::gc`: `self.inner.retain(|_, v| !v.is_expired())`. -/
def Cache.gc (c : Cache K V) (now : Nat) : Cache K V :=
  ⟨c.inner.filter fun p => ! p.2.is_expired now⟩

/-- `Cache::len`. -/
def Cache.len (c : Cache K V) : Nat := c.inner.length

/-- EDNS options record subset consumed and produced by src/src/handler.rs:
payload size, DNSSEC-OK flag, version. -/
structure Edns where
  dnssecOk : Bool
  maxPayload : Nat
  version : Nat
deriving DecidableEq

/-- One entry of the question section: the name, class and type the upstream
handler extracts (`query.name()`, `query.query_class()`, `query.query_type()`),
with the concrete wire values abstracted to numbers. -/
structure Query where
  qname : Nat
  qclass : Nat
  qtype : Nat
deriving DecidableEq

/-- A resource record, with its contents abstracted: the response builder only
copies records verbatim, never inspects them. -/
structure RRecord where
  rdata : Nat
deriving DecidableEq

/-- The header fields src/src/handler.rs reads or writes: transaction id,
opcode and response code. -/
structure Header where
  id : Nat
  opCode : Nat
  responseCode : Nat
deriving DecidableEq

/-- A decoded DNS message (`trust_dns_client::op::Message`) restricted to the
fields the core reads or writes. -/
structure Message where
  header : Header
  queries : List Query
  answers : List RRecord
  authority : List RRecord
  additional : List RRecord
  edns : Option Edns
deriving DecidableEq

/-- The errors a handler can produce (`anyhow::Error` values observed in
src/src/handler.rs): the explicit `empty queries` error, a connection
failure from `AsyncClient::connect`, or a failure of the single
`client.query` round trip (timeout, I/O or codec), with the library error
abstracted to a code. -/
inductive HandlerErr where
  | emptyQueries
  | connectFailure (code : Nat)
  | queryFailure (code : Nat)
deriving DecidableEq

/-- `anyhow::Result<A>` as returned by `AsyncQueryHandler::handle_query`. -/
inductive HResult (A : Type) where
  | ok (val : A)
  | err (e : HandlerErr)
deriving DecidableEq

/-- The outcome of a fallible library operation (connect, query, decode),
with the library error abstracted to a code. -/
inductive NetResult (A : Type) where
  | ok (val : A)
  | err (code : Nat)
deriving DecidableEq

/-- A handler's own body: an id (instrumentation only) and its resolution
function, the part of `handle_query` before the final `next_handler` call.
For `Upstream` the resolution function is the upstream round trip. -/
structure HandlerBody where
  hid : Nat
  resolve : Message → HResult Message

/-- A chain node as built from `Upstream`-shaped handlers: a body plus the
`next: Option<Box<dyn AsyncQueryHandler>>` field (`last` embeds `next = None`,
`cons` embeds `next = Some`). -/
inductive Handler where
  | last (body : HandlerBody)
  | cons (body : HandlerBody) (next : Handler)

/-- `Upstream::with_next`: sets `self.next = Some(next)`, overwriting any
previous next handler. -/
def Handler.with_next : Handler → Handler → Handler
  | .last b, n => .cons b n
  | .cons b _, n => .cons b n

/-- `AsyncQueryHandler::next`. -/
def Handler.next : Handler → Option Handler
  | .last _ => none
  | .cons _ n => some n

/-- `handle_query` of an `Upstream`-shaped handler: run the handler's own
body; on error propagate; on success hand the result to
`next_handler` (which forwards to the next handler when one exists, and
returns the message unchanged otherwise). Instrumented with the list of
handler ids invoked, in invocation order. -/
def Handler.handle_query : Handler → Message → HResult Message × List Nat
  | .last b, msg =>
    match b.resolve msg with
    | .err e => (.err e, [b.hid])
    | .ok resp => (.ok resp, [b.hid])
  | .cons b n, msg =>
    match b.resolve msg with
    | .err e => (.err e, [b.hid])
    | .ok resp =>
      let r := Handler.handle_query n resp
      (r.1, b.hid :: r.2)

/-- `AsyncQueryHandler::next_handler`: delegate to the next handler when one
exists, else return the message unchanged. -/
def Handler.next_handler : Option Handler → Message → HResult Message × List Nat
  | none, msg => (.ok msg, [])
  | some h, msg => h.handle_query msg

/-- `DnsProxy::new`: fold `first = Some(head.with_next(handler))` over the
reversed handler list; `none` embeds the `empty handlers chain` error. -/
def DnsProxy.new (handlers : List Handler) : Option Handler :=
  handlers.reverse.foldl
    (fun first handler =>
      match first with
      | none => some handler
      | some head => some (head.with_next handler))
    none

/-- The environment of one `Upstream::handle_query` call: the outcome of
`AsyncClient::connect` and the outcome of the single `client.query` round
trip (a timeout, I/O or codec failure is an `err` code). -/
structure UpstreamEnv where
  connect : NetResult Unit
  query : Query → NetResult Message

/-- The body of `Upstream::handle_query` before the final `next_handler`
call, paired with the number of query round trips attempted: connect (`?`),
then extract the first entry of the question section (`empty queries` when
none), then the single `client.query` (`?`). -/
def upstream_round_trip (env : UpstreamEnv) (msg : Message) : HResult Message × Nat :=
  match env.connect with
  | .err code => (.err (.connectFailure code), 0)
  | .ok _ =>
    match msg.queries.head? with
    | none => (.err .emptyQueries, 0)
    | some q =>
      match env.query q with
      | .err code => (.err (.queryFailure code), 1)
      | .ok resp => (.ok resp, 1)

/-- `Upstream::handle_query` in full: the round trip, then
`self.next_handler(resp.into())` on success. The second component counts this
handler's query round trips. -/
def Upstream.handle_query (env : UpstreamEnv) (next : Option Handler) (msg : Message) :
    HResult Message × Nat :=
  match upstream_round_trip env msg with
  | (.err e, n) => (.err e, n)
  | (.ok resp, n) => ((Handler.next_handler next resp).1, n)

/-- An `Upstream` node's body as a chain handler. -/
def Upstream.asBody (hid : Nat) (env : UpstreamEnv) : HandlerBody :=
  { hid := hid, resolve := fun msg => (upstream_round_trip env msg).1 }

/-- The inbound request as the orchestrator sees it
(`trust_dns_server::server::Request`): the header fields, raw question
section and EDNS record read by the response builders, plus the outcome of
`MessageRequest::try_into_message` (the encode-then-decode round trip, which
can fail). -/
structure Request where
  header : Header
  queries : List Query
  edns : Option Edns
  decodeResult : NetResult Message

/-- `make_err_msg_response`: `error_msg(message.id(), message.op_code(),
message.response_code())` over the builder seeded with the request's raw
queries — a minimal response carrying exactly those three header fields. -/
def make_err_msg_response (req : Request) : Message :=
  { header := { id := req.header.id, opCode := req.header.opCode, responseCode := req.header.responseCode },
    queries := req.queries,
    answers := [],
    authority := [],
    additional := [],
    edns := none }

/-- `make_forward_response`: the resolved message's header with the id
overwritten by the request's id, the resolved answers verbatim, empty
name-server/soa/additional sections, and — only when the request carried an
EDNS record — a fresh EDNS record with DNSSEC-OK forced true, payload
`max(request payload, 512)` and version 0. -/
def make_forward_response (req : Request) (resp : Message) : Message :=
  let base : Message :=
    { header := { resp.header with id := req.header.id },
      queries := req.queries,
      answers := resp.answers,
      authority := [],
      additional := [],
      edns := none }
  match req.edns with
  | none => base
  | some reqEdns =>
    { base with
      edns := some { dnssecOk := true, maxPayload := max reqEdns.maxPayload 512, version := 0 } }

/-- `DnsProxy::handle_request`: decode via `try_handle!` (on error send the
error response and return), dispatch to the chain via `try_handle!` (same),
else send the forward response. The returned list is the sequence of
messages given to `response_handle.send_response`, in order. -/
def DnsProxy.handle_request (chain : Handler) (req : Request) : List Message :=
  match req.decodeResult with
  | .err _ => [make_err_msg_response req]
  | .ok message =>
    match (chain.handle_query message).1 with
    | .err _ => [make_err_msg_response req]
    | .ok resp => [make_forward_response req resp]

/-- Specification-level description of the chain's result, for the amended
form of claim C1: the chain is a sequential pipeline — each handler's
successful result is handed to the next handler, an error stops the chain,
and the final result is the last handler's output. -/
def Handler.pipelineResult : Handler → Message → HResult Message
  | .last b, msg => b.resolve msg
  | .cons b n, msg =>
    match b.resolve msg with
    | .err e => .err e
    | .ok resp => Handler.pipelineResult n resp

/-- Specification-level description of which handlers run, for the amended
form of claim C1: every handler up to and including the first error, in
chain order; all of them when no handler errors. -/
def Handler.pipelineInvoked : Handler → Message → List Nat
  | .last b, _ => [b.hid]
  | .cons b n, msg =>
    match b.resolve msg with
    | .err _ => [b.hid]
    | .ok resp => b.hid :: Handler.pipelineInvoked n resp

/-- A resolution function that tags the answer section with its own number,
so invocations are observable in the output. -/
def resolveTag (t : Nat) : Message → HResult Message :=
  fun m => .ok { m with answers := [{ rdata := t }] }

/-- A one-entry question section. -/
def q0 : Query := { qname := 1, qclass := 1, qtype := 1 }

/-- A concrete query message with transaction id 7 and one question. -/
def msg0 : Message :=
  { header := { id := 7, opCode := 0, responseCode := 0 },
    queries := [q0],
    answers := [],
    authority := [],
    additional := [],
    edns := none }

/-- Concrete handler H1: always resolves, tagging its answer with 1. -/
def h1 : Handler := .last { hid := 1, resolve := resolveTag 1 }

/-- Concrete handler H2: always resolves, tagging its answer with 2. -/
def h2 : Handler := .last { hid := 2, resolve := resolveTag 2 }

/-- Concrete handler H3: always resolves, tagging its answer with 3. -/
def h3 : Handler := .last { hid := 3, resolve := resolveTag 3 }

/-- A concrete upstream environment whose connection succeeds and whose
single query round trip fails with library error code 7 (a timeout or I/O
failure). -/
def envW : UpstreamEnv := { connect := .ok (), query := fun _ => .err 7 }

theorem lookupEntry_insertEntry_self [DecidableEq K] (l : List (K × ValueWithTtl V))
    (k : K) (e : ValueWithTtl V) :
    lookupEntry (insertEntry l k e).1 k = some e := by
  induction l with
  | nil => simp [insertEntry, lookupEntry]
  | cons p rest ih =>
    by_cases h : p.1 = k
    · simp [insertEntry, lookupEntry, h]
    · simp [insertEntry, lookupEntry, h, ih]

theorem insertEntry_prev [DecidableEq K] (l : List (K × ValueWithTtl V))
    (k : K) (e : ValueWithTtl V) :
    (insertEntry l k e).2 = lookupEntry l k := by
  induction l with
  | nil => rfl
  | cons p rest ih =>
    by_cases h : p.1 = k <;> simp [insertEntry, lookupEntry, h, ih]

/-- Claim C4: after `insert(k, v, t)` at instant `T`, `get(k)` returns `v` at
every sampled instant strictly below `T + t` and absent at every sampled
instant at or above `T + t`. -/
theorem cache_insert_get_window {K V : Type} [DecidableEq K] (c : Cache K V) (k : K) (v : V)
    (t T s : Nat) (_ht : 0 < t) :
    (s < T + t → ((c.insert k v t T).1).get k s = some v) ∧
    (T + t ≤ s → ((c.insert k v t T).1).get k s = none) := by
  have hl : lookupEntry ((c.insert k v t T).1).inner k = some (ValueWithTtl.new v T t) := by
    simpa [Cache.insert] using lookupEntry_insertEntry_self c.inner k (ValueWithTtl.new v T t)
  constructor
  · intro hs
    have hn : ¬ (T + t ≤ s) := by omega
    simp [Cache.get, hl, ValueWithTtl.get, ValueWithTtl.is_expired, ValueWithTtl.new, hn]
  · intro hs
    simp [Cache.get, hl, ValueWithTtl.get, ValueWithTtl.is_expired, ValueWithTtl.new, hs]

/-- Witness for C4 at a concrete input: insert key 5 with ttl 3 at instant 10,
then read at instant 12. -/
theorem cache_insert_get_window_witness :
    ((⟨[]⟩ : Cache Nat Nat).insert 5 9 3 10).1.get 5 12 = some 9 :=
  (cache_insert_get_window ⟨[]⟩ 5 9 3 10 12 (by decide)).1 (by decide)

/-- Claim C5: `insert` returns the previous value exactly when a previous
entry existed and its deadline was still in the future at the instant of the
new insert (else absent), and the new value with its fresh deadline replaces
whatever was stored. -/
theorem cache_insert_prev_value {K V : Type} [DecidableEq K] (c : Cache K V) (k : K) (v : V)
    (ttl now : Nat) :
    (c.insert k v ttl now).2 =
      ((lookupEntry c.inner k).bind fun prev =>
        if now < prev.deadline then some prev.value else none) ∧
    lookupEntry ((c.insert k v ttl now).1).inner k = some (ValueWithTtl.new v now ttl) := by
  constructor
  · have hp : (insertEntry c.inner k (ValueWithTtl.new v now ttl)).2 = lookupEntry c.inner k :=
      insertEntry_prev c.inner k (ValueWithTtl.new v now ttl)
    simp only [Cache.insert, hp]
    cases lookupEntry c.inner k with
    | none => rfl
    | some prev =>
      by_cases h : prev.deadline ≤ now
      · have hn : ¬ (now < prev.deadline) := by omega
        simp [ValueWithTtl.extract, ValueWithTtl.is_expired, h, hn]
      · have hlt : now < prev.deadline := by omega
        simp [ValueWithTtl.extract, ValueWithTtl.is_expired, h, hlt]
  · simpa [Cache.insert] using lookupEntry_insertEntry_self c.inner k (ValueWithTtl.new v now ttl)

/-- Claim C6: after `gc` (the sweep), the cache holds exactly the previously
stored entries whose deadline is still strictly in the future at the sweep
instant, and the size does not increase. -/
theorem cache_gc_spec {K V : Type} (c : Cache K V) (now : Nat) :
    (∀ p, p ∈ (c.gc now).inner ↔ (p ∈ c.inner ∧ now < p.2.deadline)) ∧
    (c.gc now).len ≤ c.len := by
  constructor
  · intro p
    simp [Cache.gc, List.mem_filter, ValueWithTtl.is_expired, Nat.not_le]
  · simpa [Cache.gc, Cache.len] using List.length_filter_le _ c.inner

/-- Claim C1 counterexample: in the chain H1 -> H2 (built with `with_next`),
H1 is the first handler and resolves, yet H2 is still invoked — `handle_query`
hands H1's resolved result to H2 — and the final result is H2's output, not
H1's. This refutes "the final response is derived from Hi's result and the
later handlers are never invoked". -/
theorem chain_resolved_still_invokes_next :
    ((Handler.with_next h1 h2).handle_query msg0).2 = [1, 2] ∧
    ((Handler.with_next h1 h2).handle_query msg0).1 =
      .ok { msg0 with answers := [{ rdata := 2 }] } := by
  constructor <;> rfl

/-- Claim C1 (amended): a handler that returns a successful result does not
stop the chain; its result is handed to the next handler, which is invoked,
so the chain behaves as a sequential pipeline — the final response derives
from the last handler invoked, and only an error stops the chain early. -/
theorem chain_pipeline_semantics (c : Handler) (msg : Message) :
    c.handle_query msg = (c.pipelineResult msg, c.pipelineInvoked msg) := by
  induction c generalizing msg with
  | last b =>
    simp only [Handler.handle_query, Handler.pipelineResult, Handler.pipelineInvoked]
    cases b.resolve msg <;> rfl
  | cons b n ih =>
    simp only [Handler.handle_query, Handler.pipelineResult, Handler.pipelineInvoked]
    cases b.resolve msg <;> simp [ih]

/-- Claim C2: evaluation of `DnsProxy::new` at concrete handler lists. With
`[H1, H2]` the built chain consults H2 first and H1 second; with
`[H1, H2, H3]` it consults H3 then H1 and drops H2 entirely (the fold
applies `head.with_next(handler)` over the reversed list, and
`Upstream::with_next` overwrites the head's next pointer). This exhibits the
divergence from "H1 is consulted first, in configured order". -/
theorem dnsproxy_new_reverses_and_drops :
    (DnsProxy.new [h1, h2]).map (fun c => (c.handle_query msg0).2) = some [2, 1] ∧
    (DnsProxy.new [h1, h2, h3]).map (fun c => (c.handle_query msg0).2) = some [3, 1] := by
  constructor <;> rfl

/-- Claim C3: `handle_request` gives exactly one message to the response
sink on every path — decode failure, chain failure, and successful
resolution. -/
theorem handle_request_single_send (chain : Handler) (req : Request) :
    (DnsProxy.handle_request chain req).length = 1 := by
  obtain ⟨hdr, qs, ed, dr⟩ := req
  cases dr with
  | err code => rfl
  | ok message =>
    simp only [DnsProxy.handle_request]
    cases (chain.handle_query message).1 <;> rfl

/-- Claim C7: both the forward (success) response and the error response
carry the inbound request's transaction id. -/
theorem responses_echo_request_id (req : Request) (resp : Message) :
    (make_forward_response req resp).header.id = req.header.id ∧
    (make_err_msg_response req).header.id = req.header.id := by
  obtain ⟨hdr, qs, ed, dr⟩ := req
  refine ⟨?_, rfl⟩
  cases ed <;> rfl

/-- Claim C8: the forward response carries no EDNS record when the request
carried none; when the request carried one, the response's EDNS record has
DNSSEC-OK true, payload `max(request payload, 512)` and version 0,
independent of the request's advertised version. -/
theorem forward_response_edns (req : Request) (resp : Message) :
    (make_forward_response req resp).edns =
      req.edns.map fun e =>
        { dnssecOk := true, maxPayload := max e.maxPayload 512, version := 0 } := by
  obtain ⟨hdr, qs, ed, dr⟩ := req
  cases ed <;> rfl

/-- Claim C9: the error response is built from the original request's
transaction id, opcode, and the request's own response-code field. -/
theorem err_response_reuses_request_fields (req : Request) :
    (make_err_msg_response req).header.id = req.header.id ∧
    (make_err_msg_response req).header.opCode = req.header.opCode ∧
    (make_err_msg_response req).header.responseCode = req.header.responseCode :=
  ⟨rfl, rfl, rfl⟩

/-- Claim C10: `Upstream::handle_query` never makes more than one query
round trip (no retry); with an empty question section it fails with the
`empty queries` error (zero round trips); a connection failure fails with
that error (zero round trips); a round-trip failure (timeout, I/O or codec)
fails with that error after exactly one attempt; a successful round trip
also makes exactly one attempt. Every failure is an error result, never a
successful fallthrough value. -/
theorem upstream_failure_modes (env : UpstreamEnv) (next : Option Handler) (msg : Message) :
    (Upstream.handle_query env next msg).2 ≤ 1 ∧
    (env.connect = .ok () → msg.queries = [] →
      Upstream.handle_query env next msg = (.err .emptyQueries, 0)) ∧
    (∀ code, env.connect = .err code →
      Upstream.handle_query env next msg = (.err (.connectFailure code), 0)) ∧
    (∀ q code, env.connect = .ok () → msg.queries.head? = some q →
      env.query q = .err code →
      Upstream.handle_query env next msg = (.err (.queryFailure code), 1)) ∧
    (∀ q resp, env.connect = .ok () → msg.queries.head? = some q →
      env.query q = .ok resp →
      (Upstream.handle_query env next msg).2 = 1) := by
  obtain ⟨conn, qf⟩ := env
  refine ⟨?_, ?_, ?_, ?_, ?_⟩
  · cases conn with
    | err code => simp [Upstream.handle_query, upstream_round_trip]
    | ok u =>
      cases hh : msg.queries.head? with
      | none => simp [Upstream.handle_query, upstream_round_trip, hh]
      | some q =>
        cases hq : qf q <;> simp [Upstream.handle_query, upstream_round_trip, hh, hq]
  · intro hc he
    cases hc
    simp [Upstream.handle_query, upstream_round_trip, he]
  · intro code hc
    cases hc
    simp [Upstream.handle_query, upstream_round_trip]
  · intro q code hc hh hq
    cases hc
    have hq2 : qf q = .err code := hq
    simp [Upstream.handle_query, upstream_round_trip, hh, hq2]
  · intro q resp hc hh hq
    cases hc
    have hq2 : qf q = .ok resp := hq
    simp [Upstream.handle_query, upstream_round_trip, hh, hq2]

/-- Witness for C10 at a concrete input: a connected upstream whose single
round trip fails with code 7 makes exactly one attempt and propagates the
failure as an error. -/
theorem upstream_failure_modes_witness :
    Upstream.handle_query envW none msg0 = (.err (.queryFailure 7), 1) :=
  (upstream_failure_modes envW none msg0).2.2.2.1 q0 7 rfl rfl rfl

end DnsproxyRs
